import Mathlib

/-!
Verification of the SeaPP pipeline-construction tool (an LLVM bitcode
pre-processor for verification) and of the AE-VAL command-line wrapper.

The pipeline tool's `main` builds one `llvm::PassManager` by a fixed
sequence of `pass_manager.add` calls, some guarded by command-line flags.
We embed that construction as a pure function from the resolved
command-line configuration (and the module's own data-layout string) to
the ordered list of stages added to the pass manager, and prove the
ordering, inclusion and determinism properties of the specification
against it.
-/

/-- One stage (pass) added to the pass manager, identified by the pass it
constructs, with the constructor arguments the source passes along. -/
inductive Stage where
  | dataLayout (layout : String)
  | promoteVerifierCalls
  | internalize (preserve : String)
  | globalDCE
  | promoteMemoryToRegister
  | nondetInit
  | instructionCombining
  | cfgSimplification
  | scalarReplAggregates (threshold : Int) (useDomTree : Bool)
      (structMemThreshold : Int) (arrayElementThreshold : Int)
      (scalarLoadThreshold : Int)
  | deadNondetElim
  | lowerSwitch
  | deadInstElimination
  | removeUnreachableBlocks
  | markInternalInline
  | alwaysInliner
  | lowerGvInitializers
  | unifyFunctionExitNodes
  | lowerCstExpr
  | canAccessMemory
  | shadowBufferBoundsCheckFuncPars
  | bufferBoundsCheck (inlineAll : Bool)
  | integerOverflowCheck (inlineAll : Bool)
  | mixedSemantics
  | verifier
  | printModule
  | bitcodeWriter
deriving DecidableEq, Repr

/-- The command-line options of the tool, resolved once before the pass
manager is populated (`InlineAll`, `BOC`, `IOC`, `MixedSem`, the four
SROA thresholds, `DefaultDataLayout`, `OutputFilename`, `OutputAssembly`). -/
structure PipelineConfiguration where
  inlineAll : Bool
  boc : Bool
  ioc : Bool
  mixedSem : Bool
  sroaThreshold : Int
  sroaStructMemThreshold : Int
  sroaArrayElementThreshold : Int
  sroaScalarLoadThreshold : Int
  defaultDataLayout : String
  outputFilename : String
  outputAssembly : Bool
deriving DecidableEq, Repr

/-- The data-layout attachment logic of `main`: a `DataLayout` pass is
added when the module declares a layout, or else when a default layout
was supplied on the command line.  Note that the second branch of the
source constructs the `DataLayout` from `moduleDataLayout` as well (not
from the supplied default). -/
def dataLayoutStages (moduleDataLayout defaultDataLayout : String) : List Stage :=
  if ¬moduleDataLayout.isEmpty then [Stage.dataLayout moduleDataLayout]
  else if ¬defaultDataLayout.isEmpty then [Stage.dataLayout moduleDataLayout]
  else []

/-- The ordered sequence of transformation passes `main` adds to the pass
manager, up to and including the verifier pass, as a function of the
configuration and the module's own data-layout string. -/
def buildTransformPipeline (cfg : PipelineConfiguration)
    (moduleDataLayout : String) : List Stage :=
  dataLayoutStages moduleDataLayout cfg.defaultDataLayout ++
  [Stage.promoteVerifierCalls,
   Stage.internalize "main",
   Stage.globalDCE,
   Stage.promoteMemoryToRegister,
   Stage.nondetInit,
   Stage.instructionCombining,
   Stage.cfgSimplification,
   Stage.scalarReplAggregates cfg.sroaThreshold true
     cfg.sroaStructMemThreshold cfg.sroaArrayElementThreshold
     cfg.sroaScalarLoadThreshold,
   Stage.nondetInit,
   Stage.instructionCombining,
   Stage.cfgSimplification,
   Stage.deadNondetElim,
   Stage.lowerSwitch,
   Stage.deadInstElimination,
   Stage.removeUnreachableBlocks] ++
  (if cfg.inlineAll then
    [Stage.markInternalInline, Stage.alwaysInliner, Stage.globalDCE]
   else []) ++
  [Stage.removeUnreachableBlocks,
   Stage.deadInstElimination,
   Stage.globalDCE,
   Stage.lowerGvInitializers,
   Stage.unifyFunctionExitNodes] ++
  (if cfg.boc then
    [Stage.lowerCstExpr, Stage.canAccessMemory] ++
    (if cfg.inlineAll then [] else [Stage.shadowBufferBoundsCheckFuncPars]) ++
    [Stage.bufferBoundsCheck cfg.inlineAll, Stage.nondetInit]
   else []) ++
  (if cfg.ioc then
    [Stage.lowerCstExpr, Stage.integerOverflowCheck cfg.inlineAll]
   else []) ++
  [Stage.removeUnreachableBlocks] ++
  (if cfg.mixedSem then [Stage.mixedSemantics, Stage.removeUnreachableBlocks]
   else []) ++
  [Stage.verifier]

/-- The output-writing passes `main` adds after the verifier pass when an
output filename was given: the module printer under `-S`, the bitcode
writer otherwise. -/
def outputStages (cfg : PipelineConfiguration) : List Stage :=
  if ¬cfg.outputFilename.isEmpty then
    (if cfg.outputAssembly then [Stage.printModule] else [Stage.bitcodeWriter])
  else []

/-- The complete ordered pass sequence `main` hands to the pass manager. -/
def seappPasses (cfg : PipelineConfiguration) (moduleDataLayout : String) :
    List Stage :=
  buildTransformPipeline cfg moduleDataLayout ++ outputStages cfg

/-- Recognize the constant-expression-lowering stage. -/
def Stage.isLowerCstExpr : Stage → Bool
  | .lowerCstExpr => true
  | _ => false

/-- Recognize the SSA-promotion (mem2reg) stage. -/
def Stage.isPromoteMemoryToRegister : Stage → Bool
  | .promoteMemoryToRegister => true
  | _ => false

/-- Recognize the aggregate-decomposition (SROA) stage. -/
def Stage.isScalarReplAggregates : Stage → Bool
  | .scalarReplAggregates _ _ _ _ _ => true
  | _ => false

/-- Recognize the undef-to-nondet stage. -/
def Stage.isNondetInit : Stage → Bool
  | .nondetInit => true
  | _ => false

/-- Recognize the shadow-parameter stage. -/
def Stage.isShadowBufferBoundsCheckFuncPars : Stage → Bool
  | .shadowBufferBoundsCheckFuncPars => true
  | _ => false

/-- Recognize the buffer-bounds-check instrumentation stage. -/
def Stage.isBufferBoundsCheck : Stage → Bool
  | .bufferBoundsCheck _ => true
  | _ => false

/-- Recognize the integer-overflow-check instrumentation stage. -/
def Stage.isIntegerOverflowCheck : Stage → Bool
  | .integerOverflowCheck _ => true
  | _ => false

/-- Recognize the memory-access analysis stage of the bounds-check chain. -/
def Stage.isCanAccessMemory : Stage → Bool
  | .canAccessMemory => true
  | _ => false

/-- Recognize the verifier stage. -/
def Stage.isVerifier : Stage → Bool
  | .verifier => true
  | _ => false

/-- The observable outcome of one run of the tool: its exit code, whether
the output file object was ever constructed, and whether it was kept
(a constructed but unkept output file is removed on destruction). -/
structure RunOutcome where
  exitCode : Nat
  outputOpened : Bool
  outputKept : Bool
deriving DecidableEq, Repr

/-- The control flow of `main` around parsing and output preparation:
parse the input (abstracted to whether the parser produced a module); on
failure return 3 before the output file is touched; otherwise open the
output file when a filename was given (`openErrorMsg` is the error
message the output-file constructor reports), return 3 on a non-empty
error message, and on success keep the output and return 0. -/
def seappMain (parseOk : Bool) (cfg : PipelineConfiguration)
    (openErrorMsg : String) : RunOutcome :=
  if !parseOk then { exitCode := 3, outputOpened := false, outputKept := false }
  else
    let opened := !cfg.outputFilename.isEmpty
    let errorMsg := if opened then openErrorMsg else ""
    if !errorMsg.isEmpty then
      { exitCode := 3, outputOpened := opened, outputKept := false }
    else
      { exitCode := 0, outputOpened := opened, outputKept := opened }

/-- The file-name test of `getSmtFileName` in the AE-VAL wrapper: the
argument has length at least 5 and its last five characters are
`.smt2`. -/
def isSmt2Name (s : String) : Bool :=
  decide (5 ≤ s.length) &&
  decide (s.toList.drop (s.length - 5) = ".smt2".toList)

/-- The scanning loop of `getSmtFileName`: `num1` is the running count of
matching arguments seen so far (starting at 1); the list holds the
arguments `argv[1] .. argv[argc-1]` in order. -/
def getSmtFileNameAux (num : Int) : Int → List String → Option String
  | _, [] => none
  | num1, a :: rest =>
    if isSmt2Name a then
      if num1 = num then some a else getSmtFileNameAux num (num1 + 1) rest
    else getSmtFileNameAux num num1 rest

/-- `getSmtFileName` from the AE-VAL wrapper: scan the arguments left to
right and return the `num`-th one that looks like an smt2 file name,
`none` when there is no such argument. -/
def getSmtFileName (num : Int) (args : List String) : Option String :=
  getSmtFileNameAux num 1 args

/-- The claimed characterization of `getSmtFileName`, written from its
description: the `num`-th argument (1-indexed, scanning left to right)
whose length is at least 5 and which ends in `.smt2`, `none` when fewer
than `num` such arguments exist. -/
def getSmtFileNameSpec (num : Int) (args : List String) : Option String :=
  (args.filter isSmt2Name)[(num - 1).toNat]?

/-- A configuration with every flag at its default (all flags off, SROA
thresholds at their `INT_MAX` / `-1` defaults, no output file). -/
def cfgPlain : PipelineConfiguration :=
  { inlineAll := false, boc := false, ioc := false, mixedSem := false,
    sroaThreshold := 2147483647, sroaStructMemThreshold := 2147483647,
    sroaArrayElementThreshold := 2147483647, sroaScalarLoadThreshold := -1,
    defaultDataLayout := "", outputFilename := "", outputAssembly := false }

/-- The default configuration with a bitcode output file requested. -/
def cfgOut : PipelineConfiguration :=
  { cfgPlain with outputFilename := "out.bc" }

/-- The default configuration with both instrumentation flags set. -/
def cfgBocIoc : PipelineConfiguration :=
  { cfgPlain with boc := true, ioc := true }

/-- The default configuration with only bounds-check instrumentation. -/
def cfgBoc : PipelineConfiguration :=
  { cfgPlain with boc := true }

/-- The default configuration with an assembly output file requested,
used to compare pipeline construction across output settings. -/
def cfgOutAsm : PipelineConfiguration :=
  { cfgPlain with outputFilename := "out.ll", outputAssembly := true }

/-- Placement of the shadow-parameter pass relative to the bounds-check
stage: without `inlineAll` the shadow pass occurs (exactly once) and the
(unique) bounds-check stage follows it; with `inlineAll` the shadow pass
does not occur at all. -/
def shadowParameterPlacement (cfg : PipelineConfiguration) (mdl : String) :
    Prop :=
  (cfg.inlineAll = false →
    (∃ rest, (seappPasses cfg mdl).dropWhile
        (fun s => !(Stage.isShadowBufferBoundsCheckFuncPars s))
      = Stage.shadowBufferBoundsCheckFuncPars
          :: Stage.bufferBoundsCheck cfg.inlineAll :: rest) ∧
    (seappPasses cfg mdl).countP Stage.isShadowBufferBoundsCheckFuncPars = 1 ∧
    (seappPasses cfg mdl).countP Stage.isBufferBoundsCheck = 1) ∧
  (cfg.inlineAll = true →
    (seappPasses cfg mdl).countP Stage.isShadowBufferBoundsCheckFuncPars = 0)

/-! Helper lemmas about the string-dependent prefix and suffix of the
pass sequence. -/

/-- The data-layout prefix contributes nothing to the count of a stage
predicate that rejects data-layout stages. -/
theorem countP_dataLayoutStages_eq_zero (q : Stage → Bool)
    (h : ∀ s, q (Stage.dataLayout s) = false) (m d : String) :
    (dataLayoutStages m d).countP q = 0 := by
  unfold dataLayoutStages
  split_ifs <;> simp [h]

/-- The output-writing suffix contributes nothing to the count of a stage
predicate that rejects the two writer stages. -/
theorem countP_outputStages_eq_zero (q : Stage → Bool)
    (h1 : q Stage.printModule = false) (h2 : q Stage.bitcodeWriter = false)
    (cfg : PipelineConfiguration) :
    (outputStages cfg).countP q = 0 := by
  unfold outputStages
  split_ifs <;> simp [h1, h2]

/-- Dropping while a predicate holds skips the whole data-layout prefix
when the predicate accepts data-layout stages. -/
theorem dropWhile_dataLayoutStages_append (q : Stage → Bool)
    (h : ∀ s, q (Stage.dataLayout s) = true) (m d : String)
    (rest : List Stage) :
    (dataLayoutStages m d ++ rest).dropWhile q = rest.dropWhile q := by
  unfold dataLayoutStages
  split_ifs <;> simp [h]

/-! Claim theorems. -/

/-- Claim C1 (code evidence): when the module's own data-layout string is
empty and a non-empty default layout such as "e-m:e-i64:64" is supplied,
the pass actually attached is built from the module's empty layout
string, not from the supplied default: the external default is never
applied, contradicting the option's documented purpose. -/
theorem seapp_default_layout_not_applied :
    dataLayoutStages "" "e-m:e-i64:64" = [Stage.dataLayout ""] ∧
    Stage.dataLayout "" ≠ Stage.dataLayout "e-m:e-i64:64" := by
  refine ⟨rfl, ?_⟩
  decide

/-- Claim C8: when the parser cannot produce a module the run returns
exit code 3 with the output file never opened (for every configuration
and every reported open-error message), and a fully successful run
returns exit code 0. -/
theorem seapp_exit_codes (cfg : PipelineConfiguration) (msg : String) :
    seappMain false cfg msg
      = { exitCode := 3, outputOpened := false, outputKept := false } ∧
    (seappMain true cfg "").exitCode = 0 := by
  constructor
  · rfl
  · unfold seappMain
    simp only [ite_self]
    rfl

/-- Claim C9: pipeline construction is deterministic in the configuration:
two configurations agreeing on the four flags, the four SROA thresholds
and the default data layout yield the identical ordered transformation
sequence on the same module, whatever their other (output) options. -/
theorem seapp_pipeline_deterministic (c1 c2 : PipelineConfiguration)
    (mdl : String)
    (h1 : c1.inlineAll = c2.inlineAll) (h2 : c1.boc = c2.boc)
    (h3 : c1.ioc = c2.ioc) (h4 : c1.mixedSem = c2.mixedSem)
    (h5 : c1.sroaThreshold = c2.sroaThreshold)
    (h6 : c1.sroaStructMemThreshold = c2.sroaStructMemThreshold)
    (h7 : c1.sroaArrayElementThreshold = c2.sroaArrayElementThreshold)
    (h8 : c1.sroaScalarLoadThreshold = c2.sroaScalarLoadThreshold)
    (h9 : c1.defaultDataLayout = c2.defaultDataLayout) :
    buildTransformPipeline c1 mdl = buildTransformPipeline c2 mdl := by
  unfold buildTransformPipeline dataLayoutStages
  rw [h1, h2, h3, h4, h5, h6, h7, h8, h9]

/-- Claim C9 witness: the default configuration and the same configuration
with an assembly output file requested build the same transformation
pipeline. -/
theorem seapp_pipeline_deterministic_witness :
    cfgPlain.inlineAll = cfgOutAsm.inlineAll ∧ cfgPlain.boc = cfgOutAsm.boc ∧
    cfgPlain.ioc = cfgOutAsm.ioc ∧ cfgPlain.mixedSem = cfgOutAsm.mixedSem ∧
    cfgPlain.sroaThreshold = cfgOutAsm.sroaThreshold ∧
    cfgPlain.sroaStructMemThreshold = cfgOutAsm.sroaStructMemThreshold ∧
    cfgPlain.sroaArrayElementThreshold = cfgOutAsm.sroaArrayElementThreshold ∧
    cfgPlain.sroaScalarLoadThreshold = cfgOutAsm.sroaScalarLoadThreshold ∧
    cfgPlain.defaultDataLayout = cfgOutAsm.defaultDataLayout ∧
    buildTransformPipeline cfgPlain "" = buildTransformPipeline cfgOutAsm "" :=
  ⟨rfl, rfl, rfl, rfl, rfl, rfl, rfl, rfl, rfl,
   seapp_pipeline_deterministic cfgPlain cfgOutAsm ""
     rfl rfl rfl rfl rfl rfl rfl rfl rfl⟩

/-- The scanning loop returns the element of the filtered argument list at
position `num - num1`, for any running count `num1` not above `num`. -/
theorem getSmtFileNameAux_eq (num : Int) (args : List String) :
    ∀ num1 : Int, num1 ≤ num →
      getSmtFileNameAux num num1 args
        = (args.filter isSmt2Name)[(num - num1).toNat]? := by
  induction args with
  | nil =>
    intro num1 _
    simp [getSmtFileNameAux]
  | cons a rest ih =>
    intro num1 h
    by_cases ha : isSmt2Name a
    · by_cases he : num1 = num
      · subst he
        simp [getSmtFileNameAux, ha, List.filter_cons]
      · have h1 : num1 + 1 ≤ num := by
          rcases lt_or_eq_of_le h with hlt | heq
          · omega
          · exact absurd heq he
        have hk : (num - num1).toNat = (num - (num1 + 1)).toNat + 1 := by
          omega
        simp [getSmtFileNameAux, ha, he, ih (num1 + 1) h1,
          List.filter_cons, hk]
    · simp [getSmtFileNameAux, ha, ih num1 h, List.filter_cons]

/-- Claim C10: for every positive index, `getSmtFileName` returns the
`num`-th argument (scanning left to right) whose length is at least 5 and
which ends in ".smt2", and `none` when fewer than `num` such arguments
exist. -/
theorem getSmtFileName_eq_spec (num : Int) (args : List String)
    (h : 1 ≤ num) :
    getSmtFileName num args = getSmtFileNameSpec num args :=
  getSmtFileNameAux_eq num args 1 h

/-- Claim C10 witness: on the argument vector
`--skol ex_s.smt2 ex_t.smt2`, the second smt2 file name is `ex_t.smt2`,
matching the filtered-list characterization. -/
theorem getSmtFileName_eq_spec_witness :
    (1 : Int) ≤ 2 ∧
    (getSmtFileName 2 ["--skol", "ex_s.smt2", "ex_t.smt2"]
       = getSmtFileNameSpec 2 ["--skol", "ex_s.smt2", "ex_t.smt2"] ∧
     getSmtFileName 2 ["--skol", "ex_s.smt2", "ex_t.smt2"]
       = some "ex_t.smt2") :=
  ⟨by decide,
   getSmtFileName_eq_spec 2 ["--skol", "ex_s.smt2", "ex_t.smt2"] (by decide),
   by decide⟩

/-- Claim C2 counterexample: with both instrumentation flags set (default
configuration otherwise, no module layout), the pass sequence does not
contain exactly one constant-expression-lowering stage. -/
theorem seapp_lowerCstExpr_not_shared :
    ¬ (seappPasses cfgBocIoc "").countP Stage.isLowerCstExpr = 1 := by
  decide

/-- Claim C2 (amended): with both instrumentation flags set, the pass
sequence contains exactly two constant-expression-lowering stages, one
opening the bounds-check chain and one opening the overflow-check chain
(the prerequisite is added per chain, not shared): the first lowering
stage is immediately followed by the memory-access analysis that starts
the bounds-check chain, and the second lowering stage is immediately
followed by the overflow-check stage. -/
theorem seapp_lowerCstExpr_count (cfg : PipelineConfiguration) (mdl : String)
    (hb : cfg.boc = true) (hi : cfg.ioc = true) :
    (seappPasses cfg mdl).countP Stage.isLowerCstExpr = 2 ∧
    (∃ rest, (seappPasses cfg mdl).dropWhile
        (fun s => !(Stage.isLowerCstExpr s))
      = Stage.lowerCstExpr :: Stage.canAccessMemory :: rest) ∧
    (∃ rest, (((seappPasses cfg mdl).dropWhile
          (fun s => !(Stage.isLowerCstExpr s))).tail).dropWhile
        (fun s => !(Stage.isLowerCstExpr s))
      = Stage.lowerCstExpr :: Stage.integerOverflowCheck cfg.inlineAll
          :: rest) := by
  refine ⟨?_, ?_, ?_⟩ <;>
    cases hia : cfg.inlineAll <;> cases hms : cfg.mixedSem <;>
      simp [seappPasses, buildTransformPipeline, hb, hi, hia, hms,
        List.append_assoc, List.countP_append, List.countP_cons,
        List.dropWhile_cons, Stage.isLowerCstExpr,
        countP_dataLayoutStages_eq_zero,
        countP_outputStages_eq_zero,
        dropWhile_dataLayoutStages_append]

/-- Claim C2 witness: both flags set in the concrete configuration; the
pass sequence then holds two lowering stages, the first opening the
bounds-check chain and the second opening the overflow-check chain. -/
theorem seapp_lowerCstExpr_count_witness :
    cfgBocIoc.boc = true ∧ cfgBocIoc.ioc = true ∧
    ((seappPasses cfgBocIoc "").countP Stage.isLowerCstExpr = 2 ∧
     (∃ rest, (seappPasses cfgBocIoc "").dropWhile
         (fun s => !(Stage.isLowerCstExpr s))
       = Stage.lowerCstExpr :: Stage.canAccessMemory :: rest) ∧
     (∃ rest, (((seappPasses cfgBocIoc "").dropWhile
           (fun s => !(Stage.isLowerCstExpr s))).tail).dropWhile
         (fun s => !(Stage.isLowerCstExpr s))
       = Stage.lowerCstExpr :: Stage.integerOverflowCheck cfgBocIoc.inlineAll
           :: rest)) :=
  ⟨rfl, rfl, seapp_lowerCstExpr_count cfgBocIoc "" rfl rfl⟩

/-- Claim C3 counterexample: under the default configuration the pass
sequence does not contain two SSA-promotion stages, so there is no
second promotion stage after aggregate decomposition. -/
theorem seapp_no_second_promotion :
    ¬ 2 ≤ (seappPasses cfgPlain "").countP Stage.isPromoteMemoryToRegister := by
  decide

/-- Claim C3 (amended): for every configuration the pass sequence contains
exactly one SSA-promotion stage and exactly one aggregate-decomposition
stage, and the decomposition stage comes after the promotion stage;
there is no second promotion stage (the decomposition pass performs its
own internal promotion). -/
theorem seapp_promotion_before_decomposition (cfg : PipelineConfiguration)
    (mdl : String) :
    (seappPasses cfg mdl).countP Stage.isPromoteMemoryToRegister = 1 ∧
    (seappPasses cfg mdl).countP Stage.isScalarReplAggregates = 1 ∧
    ((seappPasses cfg mdl).dropWhile
        (fun s => !(Stage.isPromoteMemoryToRegister s))).countP
      Stage.isScalarReplAggregates = 1 := by
  refine ⟨?_, ?_, ?_⟩ <;>
    cases hia : cfg.inlineAll <;> cases hb : cfg.boc <;>
      cases hi : cfg.ioc <;> cases hms : cfg.mixedSem <;>
        simp [seappPasses, buildTransformPipeline, hia, hb, hi, hms,
          List.append_assoc, List.countP_append, List.countP_cons,
          List.dropWhile_cons,
          Stage.isPromoteMemoryToRegister, Stage.isScalarReplAggregates,
          countP_dataLayoutStages_eq_zero,
          countP_outputStages_eq_zero,
          dropWhile_dataLayoutStages_append]

/-- Claim C4 counterexample: when a bitcode output file is requested, the
last pass of the sequence is the bitcode writer, not the verifier. -/
theorem seapp_writer_after_verifier :
    ¬ (seappPasses cfgOut "").getLast? = some Stage.verifier := by
  decide

/-- Claim C4 (amended): for every configuration the verifier stage occurs,
and the passes after it are exactly the output-writing passes — none when
no output file is requested (the verifier is then last), otherwise the
single module-printer or bitcode-writer pass. -/
theorem seapp_verifier_then_writers (cfg : PipelineConfiguration)
    (mdl : String) :
    (seappPasses cfg mdl).dropWhile (fun s => !(Stage.isVerifier s))
      = Stage.verifier :: outputStages cfg := by
  cases hia : cfg.inlineAll <;> cases hb : cfg.boc <;>
    cases hi : cfg.ioc <;> cases hms : cfg.mixedSem <;>
      simp [seappPasses, buildTransformPipeline, hia, hb, hi, hms,
        List.append_assoc, List.dropWhile_cons, Stage.isVerifier,
        dropWhile_dataLayoutStages_append]

/-- Claim C5: with bounds-check instrumentation requested, the
shadow-parameter pass is present exactly once and immediately precedes
the (unique) bounds-check stage when inlining is off, and is absent
altogether when inlining is on. -/
theorem seapp_shadow_placement (cfg : PipelineConfiguration) (mdl : String)
    (hb : cfg.boc = true) : shadowParameterPlacement cfg mdl := by
  constructor
  · intro hia
    refine ⟨?_, ?_, ?_⟩ <;>
      cases hi : cfg.ioc <;> cases hms : cfg.mixedSem <;>
        simp [seappPasses, buildTransformPipeline, hb, hi, hia, hms,
          List.append_assoc, List.countP_append, List.countP_cons,
          List.dropWhile_cons,
          Stage.isShadowBufferBoundsCheckFuncPars, Stage.isBufferBoundsCheck,
          countP_dataLayoutStages_eq_zero,
          countP_outputStages_eq_zero,
          dropWhile_dataLayoutStages_append]
  · intro hia
    cases hi : cfg.ioc <;> cases hms : cfg.mixedSem <;>
      simp [seappPasses, buildTransformPipeline, hb, hi, hia, hms,
        List.countP_append, List.countP_cons,
        Stage.isShadowBufferBoundsCheckFuncPars,
        countP_dataLayoutStages_eq_zero,
        countP_outputStages_eq_zero]

/-- Claim C5 witness: with only the bounds-check flag set the placement
property holds of the concrete configuration. -/
theorem seapp_shadow_placement_witness :
    cfgBoc.boc = true ∧ shadowParameterPlacement cfgBoc "" :=
  ⟨rfl, seapp_shadow_placement cfgBoc "" rfl⟩

/-- Claim C6: with both instrumentation flags unset, the pass sequence
contains no constant-expression lowering, no shadow-parameter pass, no
bounds-check stage and no overflow-check stage. -/
theorem seapp_no_instrumentation (cfg : PipelineConfiguration) (mdl : String)
    (hb : cfg.boc = false) (hi : cfg.ioc = false) :
    (seappPasses cfg mdl).countP Stage.isLowerCstExpr = 0 ∧
    (seappPasses cfg mdl).countP Stage.isShadowBufferBoundsCheckFuncPars = 0 ∧
    (seappPasses cfg mdl).countP Stage.isBufferBoundsCheck = 0 ∧
    (seappPasses cfg mdl).countP Stage.isIntegerOverflowCheck = 0 := by
  refine ⟨?_, ?_, ?_, ?_⟩ <;>
    cases hia : cfg.inlineAll <;> cases hms : cfg.mixedSem <;>
      simp [seappPasses, buildTransformPipeline, hb, hi, hia, hms,
        List.countP_append, List.countP_cons,
        Stage.isLowerCstExpr, Stage.isShadowBufferBoundsCheckFuncPars,
        Stage.isBufferBoundsCheck, Stage.isIntegerOverflowCheck,
        countP_dataLayoutStages_eq_zero,
        countP_outputStages_eq_zero]

/-- Claim C6 witness: the default configuration has both flags unset and
its pass sequence holds zero instrumentation stages. -/
theorem seapp_no_instrumentation_witness :
    cfgPlain.boc = false ∧ cfgPlain.ioc = false ∧
    ((seappPasses cfgPlain "").countP Stage.isLowerCstExpr = 0 ∧
     (seappPasses cfgPlain "").countP
       Stage.isShadowBufferBoundsCheckFuncPars = 0 ∧
     (seappPasses cfgPlain "").countP Stage.isBufferBoundsCheck = 0 ∧
     (seappPasses cfgPlain "").countP Stage.isIntegerOverflowCheck = 0) :=
  ⟨rfl, rfl, seapp_no_instrumentation cfgPlain "" rfl rfl⟩

set_option maxHeartbeats 2000000 in
/-- Claim C7: the undef-to-nondet pass immediately follows the (unique)
SSA-promotion stage and immediately follows the (unique)
aggregate-decomposition stage, and it occurs twice in the unconditional
part of the pipeline: its total count is two plus the one conditional
occurrence contributed by the bounds-check chain. -/
theorem seapp_nondet_after_each_promotion (cfg : PipelineConfiguration)
    (mdl : String) :
    (∃ rest, (seappPasses cfg mdl).dropWhile
        (fun s => !(Stage.isPromoteMemoryToRegister s))
      = Stage.promoteMemoryToRegister :: Stage.nondetInit :: rest) ∧
    (∃ rest, (seappPasses cfg mdl).dropWhile
        (fun s => !(Stage.isScalarReplAggregates s))
      = Stage.scalarReplAggregates cfg.sroaThreshold true
          cfg.sroaStructMemThreshold cfg.sroaArrayElementThreshold
          cfg.sroaScalarLoadThreshold :: Stage.nondetInit :: rest) ∧
    (seappPasses cfg mdl).countP Stage.isPromoteMemoryToRegister = 1 ∧
    (seappPasses cfg mdl).countP Stage.isScalarReplAggregates = 1 ∧
    (seappPasses cfg mdl).countP Stage.isNondetInit
      = 2 + (if cfg.boc then 1 else 0) := by
  refine ⟨?_, ?_, ?_, ?_, ?_⟩ <;>
    cases hia : cfg.inlineAll <;> cases hb : cfg.boc <;>
      cases hi : cfg.ioc <;> cases hms : cfg.mixedSem <;>
        simp [seappPasses, buildTransformPipeline, hia, hb, hi, hms,
          List.append_assoc, List.countP_append, List.countP_cons,
          List.dropWhile_cons,
          Stage.isPromoteMemoryToRegister, Stage.isScalarReplAggregates,
          Stage.isNondetInit,
          countP_dataLayoutStages_eq_zero,
          countP_outputStages_eq_zero,
          dropWhile_dataLayoutStages_append]
